import Mathlib

/-!
Verification of the MATTA AI Video Generator backend against its
natural-language specification.

The development shallowly embeds the Python backend
(`backend/app/crud.py`, `backend/app/schemas.py`,
`backend/app/routers/{generation,moderation,submissions}.py`,
`backend/app/api.py`):

* the Postgres `submissions` table is a list of `Submission` records;
* each SQL statement issued by `crud.py` becomes a pure function on that
  list (one atomic store round-trip per function);
* each HTTP handler becomes a pure function from the store (plus the
  environment it interacts with: clock values, provider behaviour,
  moderation decision) to the new store, the HTTP response, and the
  side-effect flags (provider called, task enqueued, photo uploaded);
* the handler also records the list of intermediate store snapshots after
  each write (`trace`), so that interleavings of two concurrent handler
  invocations — which the event-loop server allows at every `await`ed
  store round-trip — can be expressed by sequencing the per-round-trip
  functions directly.

Spec-side definitions (the §4.1 state set and edge relation) are clearly
named `spec_...` and are only compared with the code-side definitions.
-/

namespace Matta

/-- Enum `SubmissionStatusEnum` from `backend/app/schemas.py`. -/
inductive SubmissionStatusEnum where
  | PENDING_PHOTO_APPROVAL
  | PHOTO_REJECTED
  | PHOTO_APPROVED
  | QUEUED_FOR_GENERATION
  | GENERATING_VIDEO
  | GENERATION_FAILED
  | PENDING_VIDEO_APPROVAL
  | VIDEO_REJECTED
  | VIDEO_APPROVED
deriving DecidableEq, Repr

/-- The `.value` string of each enum member (the raw string stored in the
`status` column). -/
def SubmissionStatusEnum.value : SubmissionStatusEnum → String
  | .PENDING_PHOTO_APPROVAL => "PENDING_PHOTO_APPROVAL"
  | .PHOTO_REJECTED => "PHOTO_REJECTED"
  | .PHOTO_APPROVED => "PHOTO_APPROVED"
  | .QUEUED_FOR_GENERATION => "QUEUED_FOR_GENERATION"
  | .GENERATING_VIDEO => "GENERATING_VIDEO"
  | .GENERATION_FAILED => "GENERATION_FAILED"
  | .PENDING_VIDEO_APPROVAL => "PENDING_VIDEO_APPROVAL"
  | .VIDEO_REJECTED => "VIDEO_REJECTED"
  | .VIDEO_APPROVED => "VIDEO_APPROVED"

/-- One row of the `submissions` table.  UUIDs and timestamps are modelled
as `Nat`; nullable columns as `Option`. -/
structure Submission where
  id : Nat
  submission_code : String
  status : SubmissionStatusEnum
  uploaded_photo_gcs_path : String
  generated_video_gcs_path : Option String
  user_name : String
  email : Option String
  user_prompt : Option String
  comment : Option String
  error_message : Option String
  created_at : Nat
  updated_at : Nat
  photo_moderated_at : Option Nat
  video_moderated_at : Option Nat
deriving DecidableEq, Repr

/-- The `submissions` table. -/
structure DB where
  rows : List Submission
deriving DecidableEq, Repr

/-- Query `SELECT * FROM submissions WHERE id = $1` (`crud.get_submission_by_id`):
the first row whose `id` matches. -/
def get_submission_by_id (db : DB) (submission_id : Nat) : Option Submission :=
  db.rows.find? fun s => s.id == submission_id

/-- Query `SELECT * FROM submissions WHERE submission_code = $1`
(`crud.get_submission_by_code`). -/
def get_submission_by_code (db : DB) (code : String) : Option Submission :=
  db.rows.find? fun s => s.submission_code == code

/-- The effect of the dynamically built `UPDATE submissions SET ...` of
`crud.update_submission_status` on one row.  `fields_to_update` always
contains `status`, `comment`, `error_message` and `updated_at`; it contains
`generated_video_gcs_path` only when `video_gcs_path is not None`, and the
two moderation timestamps only when the corresponding flag is set. -/
def applyStatusUpdate (now : Nat) (new_status : SubmissionStatusEnum)
    (comment video_gcs_path error_message : Option String)
    (set_photo_moderated set_video_moderated : Bool) (s : Submission) : Submission :=
  { s with
    status := new_status
    comment := comment
    error_message := error_message
    updated_at := now
    generated_video_gcs_path :=
      match video_gcs_path with
      | some p => some p
      | none => s.generated_video_gcs_path
    photo_moderated_at := if set_photo_moderated then some now else s.photo_moderated_at
    video_moderated_at := if set_video_moderated then some now else s.video_moderated_at }

/-- Function `crud.update_submission_status`: issues
`UPDATE submissions SET <fields> WHERE id = $n` and returns
`result == "UPDATE 1"`, i.e. whether exactly one row matched the `id`.
The `WHERE` clause mentions only the `id`; there is no condition on the
current `status`. -/
def update_submission_status (db : DB) (now : Nat) (submission_id : Nat)
    (new_status : SubmissionStatusEnum)
    (comment video_gcs_path error_message : Option String)
    (set_photo_moderated set_video_moderated : Bool) : DB × Bool :=
  let rows := db.rows.map fun s =>
    if s.id == submission_id then
      applyStatusUpdate now new_status comment video_gcs_path error_message
        set_photo_moderated set_video_moderated s
    else s
  let matched := (db.rows.filter fun s => s.id == submission_id).length
  ({ rows := rows }, matched == 1)

/-- Function `crud.update_submission_prompt`: issues
`UPDATE submissions SET user_prompt = $1, updated_at = $2 WHERE id = $3`
and returns `result == "UPDATE 1"`.  The `WHERE` clause mentions only the
`id`; the current `status` is not consulted. -/
def update_submission_prompt (db : DB) (now : Nat) (submission_id : Nat)
    (new_prompt : String) : DB × Bool :=
  let rows := db.rows.map fun s =>
    if s.id == submission_id then
      { s with user_prompt := some new_prompt, updated_at := now }
    else s
  let matched := (db.rows.filter fun s => s.id == submission_id).length
  ({ rows := rows }, matched == 1)

/-- Function `crud.create_submission`: inserts one row with status
`PENDING_PHOTO_APPROVAL` and returns its id. -/
def crud_create_submission (db : DB) (new_id : Nat) (now : Nat)
    (code photo_gcs_path user_name : String) (email prompt : Option String) : DB × Nat :=
  ({ rows := db.rows ++ [{
      id := new_id
      submission_code := code
      status := .PENDING_PHOTO_APPROVAL
      uploaded_photo_gcs_path := photo_gcs_path
      generated_video_gcs_path := none
      user_name := user_name
      email := email
      user_prompt := prompt
      comment := none
      error_message := none
      created_at := now
      updated_at := now
      photo_moderated_at := none
      video_moderated_at := none }] }, new_id)

/-! ### The Veo2 polling loop (`generation.poll_veo2_job`)

The loop's control structure dispatches on the provider's answer to each
poll (the `data` dict, or the exception class raised by the transport).
We model the per-attempt answer by `PollApiResponse` and supply the
answers as a function of the attempt number, which covers every possible
sequence of provider responses; the repository's in-tree mock is one
particular such sequence. -/

/-- One poll's outcome as seen by the loop body of `poll_veo2_job`:
either a `data` dict with a given `status` (and optional
`output_video_uri` / `error_message`), or one of the three exception
classes caught inside the loop. -/
inductive PollApiResponse where
  | succeeded (output_video_uri : Option String)
  | failed (error_message : Option String)
  | running
  | pending
  | otherStatus (s : String)
  | httpStatusError (code : Nat)
  | requestError (msg : String)
  | otherError (msg : String)
deriving DecidableEq, Repr

/-- The dict returned by `poll_veo2_job`:
`{"status": ..., "video_uri": ..., "error": ...}`. -/
structure PollResult where
  status : String
  video_uri : Option String
  error : Option String
deriving DecidableEq, Repr

/-- One iteration of the `while` body of `poll_veo2_job`: `some r` when
the iteration `return`s `r`, `none` when it sleeps and continues
(`RUNNING`/`PENDING`, unknown status, or any caught exception).
Python truthiness: a `SUCCEEDED` answer whose `output_video_uri` is
missing or the empty string is converted to a `FAILED` result. -/
def pollStep (r : PollApiResponse) : Option PollResult :=
  match r with
  | .succeeded u =>
    match u with
    | some uri =>
      if uri.length == 0 then
        some { status := "FAILED", video_uri := none,
               error := some "Job succeeded but output URI was missing." }
      else
        some { status := "SUCCEEDED", video_uri := some uri, error := none }
    | none =>
      some { status := "FAILED", video_uri := none,
             error := some "Job succeeded but output URI was missing." }
  | .failed m =>
    some { status := "FAILED", video_uri := none,
           error := some (m.getD "Unknown error from Veo2 API") }
  | .running => none
  | .pending => none
  | .otherStatus _ => none
  | .httpStatusError _ => none
  | .requestError _ => none
  | .otherError _ => none

/-- The value returned after the `while` loop exits without a terminal
answer. -/
def timeoutResult (max_attempts : Nat) : PollResult :=
  { status := "FAILED", video_uri := none,
    error := some ("Polling timed out after " ++ toString max_attempts ++ " attempts") }

/-- The `while attempts < max_attempts` loop of `poll_veo2_job`, with the
current `attempts` counter made explicit and a fuel argument bounding the
remaining iterations (`fuel = max_attempts - attempts` at the call site,
so fuel exhaustion and loop exit coincide and both yield the timeout
result).  Returns the result together with the final `attempts` value. -/
def pollFrom (responses : Nat → PollApiResponse) (max_attempts : Nat) :
    Nat → Nat → PollResult × Nat
  | attempts, 0 => (timeoutResult max_attempts, attempts)
  | attempts, fuel + 1 =>
    if attempts < max_attempts then
      match pollStep (responses (attempts + 1)) with
      | some r => (r, attempts + 1)
      | none => pollFrom responses max_attempts (attempts + 1) fuel
    else (timeoutResult max_attempts, attempts)

/-- Function `generation.poll_veo2_job`, given the provider's answer to each
attempt (1-based) and `settings.max_polling_attempts`. -/
def poll_veo2_job (responses : Nat → PollApiResponse) (max_attempts : Nat) : PollResult :=
  (pollFrom responses max_attempts 0 max_attempts).1

/-- The number of polling iterations `poll_veo2_job` performs. -/
def poll_veo2_job_attempts (responses : Nat → PollApiResponse) (max_attempts : Nat) : Nat :=
  (pollFrom responses max_attempts 0 max_attempts).2

/-! ### HTTP handlers -/

/-- The response of a FastAPI handler: a returned `Response` with a 2xx
code, a returned 204 No Content, or a raised `HTTPException`. -/
inductive HandlerResponse where
  | ok (code : Nat) (message : String)
  | noContent
  | httpError (code : Nat) (detail : String)
deriving DecidableEq, Repr

/-- The observable outcome of one handler invocation: the final store,
the store snapshot after each store write (`trace`, used to reason about
interleavings and intermediate states), the HTTP response, and whether
the handler reached each of its external side effects. -/
structure AppResult where
  db : DB
  trace : List DB
  response : HandlerResponse
  providerCalled : Bool
  taskEnqueued : Bool
  photoUploaded : Bool
deriving Repr

/-- An `AppResult` that performed no write and no external side effect. -/
def noEffect (db : DB) (response : HandlerResponse) : AppResult :=
  { db := db, trace := [], response := response,
    providerCalled := false, taskEnqueued := false, photoUploaded := false }

/-- The behaviour of the Veo2 provider during one `generate_video`
invocation: the job submission either raises (one of the three exception
classes distinguished by the handler) or returns a job id after which the
handler polls with the given per-attempt answers. -/
inductive ProviderBehavior where
  | submitHttpStatusError (code : Nat)
  | submitRequestError (msg : String)
  | submitUnexpected (msg : String)
  | submitOk (job_id : String) (responses : Nat → PollApiResponse)

/-- Python `str(value)` of an `Option String` in an f-string
(`None` prints as `"None"`). -/
def optStr : Option String → String
  | some s => s
  | none => "None"

/-- Handler `generation.generate_video` (the Cloud Tasks target).
Parameters beyond the store: the task retry-count header (read only for
logging), the provider behaviour, the clock value at each of the two
status writes, and `settings.max_polling_attempts`.

On the submit-exception paths the handler attempts a failure update but
passes the keyword argument `veo2_job_id`, which
`crud.update_submission_status` does not accept; the resulting `TypeError`
is caught by the surrounding `except ... as db_err` logger, so no store
write happens on those paths and the record stays `GENERATING_VIDEO`. -/
def generate_video (max_polling_attempts : Nat) (db : DB) (submission_id : Nat)
    (task_retry_count : Option Nat) (provider : ProviderBehavior)
    (t1 t2 : Nat) : AppResult :=
  match get_submission_by_id db submission_id with
  | none => noEffect db (.ok 200 "Submission not found, task acknowledged.")
  | some submission_record =>
    let current_status := submission_record.status
    if current_status ≠ .PHOTO_APPROVED then
      noEffect db (.ok 200 ("Submission status is SubmissionStatusEnum." ++
        current_status.value ++ ", processing skipped."))
    else
      let db1 := (update_submission_status db t1 submission_id .GENERATING_VIDEO
        none none none false false).1
      match provider with
      | .submitHttpStatusError code =>
        { db := db1, trace := [db1],
          response := .httpError 503 ("Veo2 initiation API error: " ++ toString code),
          providerCalled := true, taskEnqueued := false, photoUploaded := false }
      | .submitRequestError msg =>
        { db := db1, trace := [db1],
          response := .httpError 503 ("Network error during Veo2 initiation: " ++ msg),
          providerCalled := true, taskEnqueued := false, photoUploaded := false }
      | .submitUnexpected msg =>
        { db := db1, trace := [db1],
          response := .httpError 500 ("Unexpected server error: " ++ msg),
          providerCalled := true, taskEnqueued := false, photoUploaded := false }
      | .submitOk _ responses =>
        let poll_result := poll_veo2_job responses max_polling_attempts
        if poll_result.status == "SUCCEEDED" then
          let db2 := (update_submission_status db1 t2 submission_id
            .PENDING_VIDEO_APPROVAL none poll_result.video_uri none false false).1
          { db := db2, trace := [db1, db2],
            response := .ok 200 "Processing successful",
            providerCalled := true, taskEnqueued := false, photoUploaded := false }
        else
          let db2 := (update_submission_status db1 t2 submission_id
            .GENERATION_FAILED none none poll_result.error false false).1
          { db := db2, trace := [db1, db2],
            response := .ok 200 ("Video generation failed: " ++ optStr poll_result.error),
            providerCalled := true, taskEnqueued := false, photoUploaded := false }

/-- Enum `schemas.ModerationDecisionEnum`. -/
inductive ModerationDecisionEnum where
  | approve
  | reject
deriving DecidableEq, Repr

/-- Handler `moderation.moderate_photo`, where `enqueue_ok` models whether
`create_video_generation_task` (the Cloud Tasks enqueue) succeeds or
raises. -/
def moderate_photo (db : DB) (now : Nat) (submission_id : Nat)
    (decision : ModerationDecisionEnum) (enqueue_ok : Bool) : AppResult :=
  match get_submission_by_id db submission_id with
  | none => noEffect db (.httpError 404 "Submission not found.")
  | some submission =>
    if submission.status ≠ .PENDING_PHOTO_APPROVAL then
      noEffect db (.httpError 400 ("Submission is not pending photo approval (status: " ++
        submission.status.value ++ ")."))
    else
      match decision with
      | .approve =>
        let u := update_submission_status db now submission_id .PHOTO_APPROVED
          none none none true false
        if u.2 then
          if enqueue_ok then
            { db := u.1, trace := [u.1], response := .noContent,
              providerCalled := false, taskEnqueued := true, photoUploaded := false }
          else
            { db := u.1, trace := [u.1],
              response := .httpError 500 "Failed to trigger video generation.",
              providerCalled := false, taskEnqueued := false, photoUploaded := false }
        else
          { db := u.1, trace := [u.1],
            response := .httpError 500 "Failed to update submission status.",
            providerCalled := false, taskEnqueued := false, photoUploaded := false }
      | .reject =>
        let u := update_submission_status db now submission_id .PHOTO_REJECTED
          none none none true false
        if u.2 then
          { db := u.1, trace := [u.1], response := .noContent,
            providerCalled := false, taskEnqueued := false, photoUploaded := false }
        else
          { db := u.1, trace := [u.1],
            response := .httpError 500 "Failed to update submission status.",
            providerCalled := false, taskEnqueued := false, photoUploaded := false }

/-- Handler `moderation.moderate_video`. -/
def moderate_video (db : DB) (now : Nat) (submission_id : Nat)
    (decision : ModerationDecisionEnum) : AppResult :=
  match get_submission_by_id db submission_id with
  | none => noEffect db (.httpError 404 "Submission not found.")
  | some submission =>
    if submission.status ≠ .PENDING_VIDEO_APPROVAL then
      noEffect db (.httpError 400 ("Submission is not pending video approval (status: " ++
        submission.status.value ++ ")."))
    else
      let new_status : SubmissionStatusEnum :=
        match decision with
        | .approve => .VIDEO_APPROVED
        | .reject => .VIDEO_REJECTED
      let u := update_submission_status db now submission_id new_status
        none none none false true
      if u.2 then
        { db := u.1, trace := [u.1], response := .noContent,
          providerCalled := false, taskEnqueued := false, photoUploaded := false }
      else
        { db := u.1, trace := [u.1],
          response := .httpError 500 "Failed to update submission status.",
          providerCalled := false, taskEnqueued := false, photoUploaded := false }

/-! ### Submission creation (`submissions.create_submission`) -/

/-- Character class `[a-zA-Z0-9._%+-]` (the local part of the email
pattern). -/
def isLocalChar (c : Char) : Bool :=
  c.isAlpha || c.isDigit || c == '.' || c == '_' || c == '%' || c == '+' || c == '-'

/-- Character class `[a-zA-Z0-9.-]` (the domain part of the email
pattern). -/
def isDomainChar (c : Char) : Bool :=
  c.isAlpha || c.isDigit || c == '.' || c == '-'

/-- Pattern `[a-zA-Z]{2,}` anchored to the end: at least two characters, all
ASCII letters. -/
def isTld (cs : List Char) : Bool :=
  decide (2 ≤ cs.length) && cs.all Char.isAlpha

/-- Backtracking match of `[a-zA-Z0-9.-]*\.[a-zA-Z]{2,}$` against the
remainder of the domain: succeeds when some decomposition puts the
literal dot here (followed by a terminal `[a-zA-Z]{2,}`) or consumes one
more `[a-zA-Z0-9.-]` character. -/
def domTail : List Char → Bool
  | [] => false
  | c :: rest => (c == '.' && isTld rest) || (isDomainChar c && domTail rest)

/-- Match of `[a-zA-Z0-9.-]+\.[a-zA-Z]{2,}$`: the one-or-more class must
consume at least the first character. -/
def domMatch : List Char → Bool
  | [] => false
  | c :: rest => isDomainChar c && domTail rest

/-- In Python `re`, `$` also matches just before a single trailing
newline; strip it before anchoring. -/
def stripFinalNewline (cs : List Char) : List Char :=
  if cs.getLast? == some '\n' then cs.dropLast else cs

/-- Call `re.match(r"^[a-zA-Z0-9._%+-]+@[a-zA-Z0-9.-]+\.[a-zA-Z]{2,}$", s)`:
the local class cannot match `@`, so the pattern's `@` matches the first
`@` of the string; the part before it must be a nonempty run of local
characters and the part after it must match the domain pattern. -/
def emailCore (cs : List Char) : Bool :=
  let p := cs.span fun c => c != '@'
  match p.2 with
  | '@' :: dom => decide (p.1 ≠ []) && p.1.all isLocalChar && domMatch dom
  | _ => false

/-- Function `submissions.is_valid_email_regex` applied to a present string
argument. -/
def is_valid_email_regex (email : String) : Bool :=
  emailCore (stripFinalNewline email.toList)

/-- Handler `submissions.create_submission` (the `POST /submissions/` endpoint).
`email` is `Form(None)`: `none` when the form field is omitted.  Calling
`is_valid_email_regex(None)` executes `re.match(pattern, None)`, which
raises `TypeError` outside the handler's `try` block, surfacing as an
unhandled 500 before the upload and the insert. -/
def create_submission (db : DB) (new_id now : Nat) (submission_code file_extension : String)
    (content_type user_name : String) (email user_prompt : Option String) : AppResult :=
  if content_type ∉ ["image/jpeg", "image/png", "image/heic"] then
    noEffect db (.httpError 400 ("Invalid file type: " ++ content_type ++
      ". Only JPEG, PNG, HEIC allowed."))
  else
    match email with
    | none =>
      noEffect db (.httpError 500
        "TypeError: expected string or bytes-like object")
    | some e =>
      if !is_valid_email_regex e then
        noEffect db (.httpError 400 "Invalid email format.")
      else
        let photo_gcs_path := "pending_photos/" ++ submission_code ++ file_extension
        let db1 := (crud_create_submission db new_id now submission_code photo_gcs_path
          user_name (some e) user_prompt).1
        { db := db1, trace := [db1],
          response := .ok 201 "Submission received successfully.",
          providerCalled := false, taskEnqueued := false, photoUploaded := true }

/-! ### The API-key gate (`api.get_api_key`) and the application -/

/-- Dependency `api.get_api_key`: the `X-API-Key` header (absent ⇒ `None`, because
`auto_error=False`) is compared with `settings.api_key` (a `str`); a
mismatch raises 403 before the endpoint body runs. -/
def get_api_key (configured_key : String) (header : Option String) : Bool :=
  match header with
  | some v => v == configured_key
  | none => false

/-- One inbound mutating request, carrying everything the corresponding
handler reads from its environment. -/
inductive ApiCall where
  | createSub (new_id now : Nat) (code ext content_type user_name : String)
      (email user_prompt : Option String)
  | modPhoto (submission_id now : Nat) (decision : ModerationDecisionEnum) (enqueue_ok : Bool)
  | modVideo (submission_id now : Nat) (decision : ModerationDecisionEnum)
  | genVideo (submission_id : Nat) (task_retry_count : Option Nat)
      (provider : ProviderBehavior) (t1 t2 max_polling_attempts : Nat)

/-- Routing of a mutating request to its handler. -/
def dispatch (db : DB) : ApiCall → AppResult
  | .createSub new_id now code ext ct un email up =>
    create_submission db new_id now code ext ct un email up
  | .modPhoto i now d e => moderate_photo db now i d e
  | .modVideo i now d => moderate_video db now i d
  | .genVideo i rc p t1 t2 m => generate_video m db i rc p t1 t2

/-- The FastAPI application: the app-level dependency `get_api_key` runs
before any endpoint body; on failure the request is answered 403 and no
handler runs. -/
def handle_request (configured_key : String) (header : Option String)
    (db : DB) (call : ApiCall) : AppResult :=
  if get_api_key configured_key header then dispatch db call
  else noEffect db (.httpError 403 "Could not validate API KEY")

/-! ### Spec-side definitions (for comparison with the code) -/

/-- Modelled from the spec: the closed state set of §4.1, as a predicate
on the code's enum.  §4.1 lists `PENDING_PHOTO_APPROVAL`,
`PHOTO_APPROVED`, `PHOTO_REJECTED`, `GENERATING_VIDEO`,
`PENDING_VIDEO_APPROVAL`, `GENERATION_FAILED`, `PENDING_GENERATION_RETRY`,
`VIDEO_APPROVED`, `VIDEO_REJECTED`.  Of the code's enum members only
`QUEUED_FOR_GENERATION` is outside that set (and the spec's
`PENDING_GENERATION_RETRY` has no counterpart in the code's enum at
all). -/
def spec_state_set : SubmissionStatusEnum → Bool
  | .QUEUED_FOR_GENERATION => false
  | _ => true

/-- Modelled from the spec: the directed edges of §4.1, restricted to
states representable in the code's enum (the two edges through the
spec-only state `PENDING_GENERATION_RETRY` — `GENERATING_VIDEO →
PENDING_GENERATION_RETRY` and back — cannot be expressed over the code's
enum and are omitted). -/
def spec_edge : SubmissionStatusEnum → SubmissionStatusEnum → Bool
  | .PENDING_PHOTO_APPROVAL, .PHOTO_APPROVED => true
  | .PENDING_PHOTO_APPROVAL, .PHOTO_REJECTED => true
  | .PHOTO_APPROVED, .GENERATING_VIDEO => true
  | .GENERATING_VIDEO, .PENDING_VIDEO_APPROVAL => true
  | .GENERATING_VIDEO, .GENERATION_FAILED => true
  | .PENDING_VIDEO_APPROVAL, .VIDEO_APPROVED => true
  | .PENDING_VIDEO_APPROVAL, .VIDEO_REJECTED => true
  | _, _ => false

/-- Between two consecutive store snapshots, every record either keeps
its status or moves along a §4.1 edge. -/
def EdgeOk (d d' : DB) : Prop :=
  ∀ i r r', get_submission_by_id d i = some r → get_submission_by_id d' i = some r' →
    r.status = r'.status ∨ spec_edge r.status r'.status = true

/-- Predicate `EdgeOk` holds between each pair of consecutive snapshots of a write
trace. -/
def TraceOk : DB → List DB → Prop
  | _, [] => True
  | d, d' :: rest => EdgeOk d d' ∧ TraceOk d' rest

/-! ### Concrete sample data for witnesses and counterexamples -/

/-- A concrete submission row. -/
def sampleSub (i : Nat) (st : SubmissionStatusEnum) : Submission :=
  { id := i
    submission_code := "CODE1"
    status := st
    uploaded_photo_gcs_path := "gs://bucket/pending_photos/CODE1.jpg"
    generated_video_gcs_path := none
    user_name := "ada"
    email := some "ada@example.com"
    user_prompt := some "zoom in"
    comment := none
    error_message := none
    created_at := 0
    updated_at := 0
    photo_moderated_at := none
    video_moderated_at := none }

/-- A one-row store whose record has the given status. -/
def sampleDB (st : SubmissionStatusEnum) : DB := { rows := [sampleSub 1 st] }

/-! The interleaved execution used by the C3 counterexample.  Two
generation-task deliveries A and B for the same submission both execute
Step 1 of `generate_video` (fetch + status check) against the same
snapshot `C3_db0`, in which the record is `PHOTO_APPROVED`, so both pass
the idempotency gate — the gate is a plain read, not a conditional
write.  A then runs to completion (its two writes produce `C3_db2A`);
B's claim write — issued with exactly the arguments `generate_video`
passes to `crud.update_submission_status` in its Step 2 — lands
afterwards (`C3_db3`), followed by B's failure write (`C3_db4`). -/

/-- Shared snapshot: the record is `PHOTO_APPROVED`; both deliveries read
it here. -/
def C3_db0 : DB := sampleDB .PHOTO_APPROVED

/-- Delivery A runs to completion with a successful provider job. -/
def C3_db2A : DB :=
  (generate_video 80 C3_db0 1 none
    (.submitOk "job-A" fun _ => .succeeded (some "gs://bucket/generated/v.mp4")) 1 2).db

/-- Delivery B's Step-2 claim write, issued after A has finished. -/
def C3_db3 : DB :=
  (update_submission_status C3_db2A 3 1 .GENERATING_VIDEO none none none false false).1

/-- Delivery B's failure write (its provider job timed out). -/
def C3_db4 : DB :=
  (update_submission_status C3_db3 4 1 .GENERATION_FAILED none none
    (some "Polling timed out after 80 attempts") false false).1


/-! ### Helper lemmas about the store operations -/

/-- Lemma: `find?` commutes with a `map` whose function does not change the
tested predicate. -/
theorem find?_map_pred {α : Type} (g : α → α) (p : α → Bool)
    (hp : ∀ s, p (g s) = p s) (l : List α) :
    (l.map g).find? p = (l.find? p).map g := by
  induction l with
  | nil => rfl
  | cons a t ih =>
    by_cases h : p a = true
    · simp [List.find?, hp a, h]
    · simp only [Bool.not_eq_true] at h
      simp [List.find?, hp a, h, ih]

/-- The length of a `filter` is unchanged by a `map` whose function does
not change the tested predicate. -/
theorem filter_length_map_pred {α : Type} (g : α → α) (p : α → Bool)
    (hp : ∀ s, p (g s) = p s) (l : List α) :
    ((l.map g).filter p).length = (l.filter p).length := by
  induction l with
  | nil => rfl
  | cons a t ih =>
    by_cases h : p a = true
    · simp [List.filter, hp a, h, ih]
    · simp only [Bool.not_eq_true] at h
      simp [List.filter, hp a, h, ih]

/-- Lemma: `find?` on a list extended on the right still returns a hit found in
the prefix. -/
theorem find?_append_left {α : Type} (l : List α) (x : α) (p : α → Bool) (a : α)
    (h : l.find? p = some a) : (l ++ [x]).find? p = some a := by
  induction l with
  | nil => simp [List.find?] at h
  | cons b t ih =>
    by_cases hb : p b = true
    · rw [List.find?_cons_of_pos _ hb] at h
      rw [List.cons_append, List.find?_cons_of_pos _ hb]
      exact h
    · rw [List.find?_cons_of_neg _ hb] at h
      rw [List.cons_append, List.find?_cons_of_neg _ hb]
      exact ih h

/-- Point lookup after `update_submission_status`: the selected row is
the old row, transformed when (and only when) its id matches the updated
id. -/
theorem get_submission_by_id_update (db : DB) (now submission_id : Nat)
    (ns : SubmissionStatusEnum) (c v e : Option String) (pm vm : Bool) (i : Nat) :
    get_submission_by_id
        (update_submission_status db now submission_id ns c v e pm vm).1 i =
      (get_submission_by_id db i).map
        (fun s => if s.id == submission_id then applyStatusUpdate now ns c v e pm vm s else s) := by
  unfold get_submission_by_id update_submission_status
  exact find?_map_pred _ _
    (fun s => by by_cases h : s.id == submission_id <;> simp [h, applyStatusUpdate]) _

/-- Point lookup after `update_submission_prompt`. -/
theorem get_submission_by_id_update_prompt (db : DB) (now submission_id : Nat)
    (p : String) (i : Nat) :
    get_submission_by_id (update_submission_prompt db now submission_id p).1 i =
      (get_submission_by_id db i).map
        (fun s => if s.id == submission_id then
          { s with user_prompt := some p, updated_at := now } else s) := by
  unfold get_submission_by_id update_submission_prompt
  exact find?_map_pred _ _
    (fun s => by by_cases h : s.id == submission_id <;> simp [h]) _

/-- A row returned by `get_submission_by_id db i` has id `i`. -/
theorem get_submission_by_id_id (db : DB) (i : Nat) (r : Submission)
    (h : get_submission_by_id db i = some r) : r.id = i := by
  have h2 := List.find?_some h
  simpa [Nat.beq_eq_true_eq] using h2

/-- The success flag of `update_submission_status` says exactly that one
row matched the id. -/
theorem update_submission_status_flag (db : DB) (now submission_id : Nat)
    (ns : SubmissionStatusEnum) (c v e : Option String) (pm vm : Bool) :
    (update_submission_status db now submission_id ns c v e pm vm).2 = true ↔
      (db.rows.filter fun s => s.id == submission_id).length = 1 := by
  unfold update_submission_status
  simp [Nat.beq_eq_true_eq]

/-- The row count matching an id is unchanged by `update_submission_status`. -/
theorem update_submission_status_count (db : DB) (now submission_id : Nat)
    (ns : SubmissionStatusEnum) (c v e : Option String) (pm vm : Bool) (i : Nat) :
    (((update_submission_status db now submission_id ns c v e pm vm).1.rows.filter
        fun s => s.id == i).length) =
      ((db.rows.filter fun s => s.id == i).length) := by
  unfold update_submission_status
  exact filter_length_map_pred _ _
    (fun s => by by_cases h : s.id == submission_id <;> simp [h, applyStatusUpdate]) _

/-! ### C1 — the status-transition operation is not a compare-and-swap -/

/-- C1, counterexample: `update_submission_status` carries no
expected-status set and its `WHERE` clause tests only the id.  A record
whose current status is `PENDING_VIDEO_APPROVAL` — not in a caller's
expected set `{PHOTO_APPROVED}` — is still overwritten to
`GENERATING_VIDEO` and the call returns `true`; and two back-to-back
callers that both expected `PHOTO_APPROVED` both return `true` rather
than exactly one. -/
theorem C1_counterexample :
    ((get_submission_by_id (sampleDB .PENDING_VIDEO_APPROVAL) 1).map Submission.status =
      some .PENDING_VIDEO_APPROVAL
    ∧ (update_submission_status (sampleDB .PENDING_VIDEO_APPROVAL) 3 1 .GENERATING_VIDEO
        none none none false false).2 = true
    ∧ (get_submission_by_id (update_submission_status (sampleDB .PENDING_VIDEO_APPROVAL) 3 1
        .GENERATING_VIDEO none none none false false).1 1).map Submission.status =
      some .GENERATING_VIDEO)
    ∧ (update_submission_status (sampleDB .PHOTO_APPROVED) 1 1 .GENERATING_VIDEO
        none none none false false).2 = true
    ∧ (update_submission_status
        (update_submission_status (sampleDB .PHOTO_APPROVED) 1 1 .GENERATING_VIDEO
          none none none false false).1
        2 1 .GENERATING_VIDEO none none none false false).2 = true :=
  ⟨⟨rfl, rfl, rfl⟩, rfl, rfl⟩

/-- C1, amended: `update_submission_status` takes no expected-status set
and performs no conditional check — it writes the new status (plus the
auxiliary fields) and bumps `updated_at` unconditionally to every row
matching the id, returns `true` exactly when one row matched the id
(regardless of that row's current status), and a second caller repeating
the update gets the same answer as the first, so two callers that both
read `PHOTO_APPROVED` and set `GENERATING_VIDEO` both return `true`. -/
theorem C1_amended (db : DB) (now now' id : Nat) (ns ns' : SubmissionStatusEnum)
    (c v e c' v' e' : Option String) (pm vm pm' vm' : Bool) :
    let u := update_submission_status db now id ns c v e pm vm
    let u' := update_submission_status u.1 now' id ns' c' v' e' pm' vm'
    (u.2 = true ↔ (db.rows.filter fun s => s.id == id).length = 1)
    ∧ u'.2 = u.2
    ∧ (∀ r, get_submission_by_id db id = some r →
        get_submission_by_id u.1 id = some (applyStatusUpdate now ns c v e pm vm r)) := by
  refine ⟨update_submission_status_flag db now id ns c v e pm vm, ?_, ?_⟩
  · show (((update_submission_status db now id ns c v e pm vm).1.rows.filter
        fun s => s.id == id).length == 1) =
      (((db.rows.filter fun s => s.id == id).length) == 1)
    rw [update_submission_status_count]
  · intro r hr
    rw [get_submission_by_id_update, hr]
    have : r.id = id := get_submission_by_id_id db id r hr
    simp [this]

/-- C1, amended, witness: the record is in `PENDING_VIDEO_APPROVAL`, yet
the update to `GENERATING_VIDEO` is applied. -/
theorem C1_amended_witness :
    get_submission_by_id (update_submission_status (sampleDB .PENDING_VIDEO_APPROVAL) 3 1
        .GENERATING_VIDEO none none none false false).1 1 =
      some (applyStatusUpdate 3 .GENERATING_VIDEO none none none false false
        (sampleSub 1 .PENDING_VIDEO_APPROVAL)) :=
  (C1_amended (sampleDB .PENDING_VIDEO_APPROVAL) 3 4 1 .GENERATING_VIDEO .GENERATING_VIDEO
    none none none none none none false false false false).2.2
    (sampleSub 1 .PENDING_VIDEO_APPROVAL) rfl

/-! ### C5 — the prompt update is not gated on the pre-generation phase -/

/-- C5, counterexample: `update_submission_prompt` has no status
condition; with the record already in `GENERATING_VIDEO` the call still
returns `true` and the prompt is overwritten. -/
theorem C5_counterexample :
    ((get_submission_by_id (sampleDB .GENERATING_VIDEO) 1).map Submission.status =
      some .GENERATING_VIDEO)
    ∧ (update_submission_prompt (sampleDB .GENERATING_VIDEO) 5 1 "new prompt").2 = true
    ∧ (get_submission_by_id
        (update_submission_prompt (sampleDB .GENERATING_VIDEO) 5 1 "new prompt").1 1).map
        Submission.user_prompt = some (some "new prompt") :=
  ⟨rfl, rfl, rfl⟩

/-- C5, amended: `update_submission_prompt` succeeds, and overwrites the
prompt and bumps `updated_at`, whenever exactly one row with the given id
exists — whatever that row's status, `GENERATING_VIDEO` and later states
included; it returns `false` only when no (single) row matches the id. -/
theorem C5_amended (db : DB) (now id : Nat) (p : String) :
    let u := update_submission_prompt db now id p
    (u.2 = true ↔ (db.rows.filter fun s => s.id == id).length = 1)
    ∧ (∀ r, get_submission_by_id db id = some r →
        get_submission_by_id u.1 id =
          some { r with user_prompt := some p, updated_at := now }) := by
  constructor
  · unfold update_submission_prompt
    simp [Nat.beq_eq_true_eq]
  · intro r hr
    rw [get_submission_by_id_update_prompt, hr]
    have : r.id = id := get_submission_by_id_id db id r hr
    simp [this]

/-- C5, amended, witness: prompt update applied to a record in
`GENERATING_VIDEO`. -/
theorem C5_amended_witness :
    get_submission_by_id (update_submission_prompt (sampleDB .GENERATING_VIDEO) 5 1
        "new prompt").1 1 =
      some { sampleSub 1 .GENERATING_VIDEO with
        user_prompt := some "new prompt", updated_at := 5 } :=
  (C5_amended (sampleDB .GENERATING_VIDEO) 5 1 "new prompt").2
    (sampleSub 1 .GENERATING_VIDEO) rfl

/-! ### C4 — redelivery to a non-actionable submission is a pure ack -/

/-- C4: when the fetched record's status is anything other than
`PHOTO_APPROVED` (in particular `PENDING_VIDEO_APPROVAL`), the
generation handler performs no store write, makes no provider call, and
answers 200 — independent of the provider behaviour and the retry-count
header. -/
theorem C4_skip (max_polling_attempts : Nat) (db : DB) (submission_id : Nat)
    (task_retry_count : Option Nat) (provider : ProviderBehavior) (t1 t2 : Nat)
    (r : Submission)
    (hfind : get_submission_by_id db submission_id = some r)
    (hst : r.status ≠ .PHOTO_APPROVED) :
    generate_video max_polling_attempts db submission_id task_retry_count provider t1 t2 =
      noEffect db (.ok 200 ("Submission status is SubmissionStatusEnum." ++
        r.status.value ++ ", processing skipped.")) := by
  unfold generate_video
  rw [hfind]
  simp [hst]

/-- C4, witness: a submission already in `PENDING_VIDEO_APPROVAL` is
acknowledged with 200, with the store returned unchanged and every
side-effect flag false. -/
theorem C4_skip_witness :
    generate_video 80 (sampleDB .PENDING_VIDEO_APPROVAL) 1 (some 3)
        (.submitOk "job-1" fun _ => .running) 1 2 =
      noEffect (sampleDB .PENDING_VIDEO_APPROVAL)
        (.ok 200 "Submission status is SubmissionStatusEnum.PENDING_VIDEO_APPROVAL, processing skipped.") :=
  C4_skip 80 (sampleDB .PENDING_VIDEO_APPROVAL) 1 (some 3)
    (.submitOk "job-1" fun _ => .running) 1 2
    (sampleSub 1 .PENDING_VIDEO_APPROVAL) rfl (by decide)

/-! ### C7 — approving an already-rejected photo is refused unchanged -/

/-- C7: a photo-approve request for a submission in `PHOTO_REJECTED` is
answered with an error (HTTP 400 naming the conflicting status), the
store is unchanged (the status remains `PHOTO_REJECTED`), and no
generation task is enqueued. -/
theorem C7_conflict (db : DB) (now submission_id : Nat) (enqueue_ok : Bool)
    (r : Submission)
    (hfind : get_submission_by_id db submission_id = some r)
    (hst : r.status = .PHOTO_REJECTED) :
    moderate_photo db now submission_id .approve enqueue_ok =
      noEffect db (.httpError 400
        "Submission is not pending photo approval (status: PHOTO_REJECTED).")
    ∧ (get_submission_by_id
        (moderate_photo db now submission_id .approve enqueue_ok).db submission_id).map
        Submission.status = some .PHOTO_REJECTED := by
  have h : moderate_photo db now submission_id .approve enqueue_ok =
      noEffect db (.httpError 400
        "Submission is not pending photo approval (status: PHOTO_REJECTED).") := by
    unfold moderate_photo
    rw [hfind]
    simp [hst, SubmissionStatusEnum.value]
  refine ⟨h, ?_⟩
  rw [h]
  show (get_submission_by_id db submission_id).map Submission.status = _
  rw [hfind]
  simp [hst]

/-- C7, witness. -/
theorem C7_conflict_witness :
    moderate_photo (sampleDB .PHOTO_REJECTED) 7 1 .approve true =
      noEffect (sampleDB .PHOTO_REJECTED) (.httpError 400
        "Submission is not pending photo approval (status: PHOTO_REJECTED).")
    ∧ (get_submission_by_id
        (moderate_photo (sampleDB .PHOTO_REJECTED) 7 1 .approve true).db 1).map
        Submission.status = some .PHOTO_REJECTED :=
  C7_conflict (sampleDB .PHOTO_REJECTED) 7 1 true (sampleSub 1 .PHOTO_REJECTED) rfl rfl

/-! ### C8 — the shared-credential gate runs before any handler logic -/

/-- C8: a request without the `X-API-Key` header is answered 403 by the
app-level dependency for every mutating endpoint; the store is unchanged
and no upload, provider call or enqueue happens — whatever the request
and whatever the configured key. -/
theorem C8_auth (configured_key : String) (db : DB) (call : ApiCall) :
    handle_request configured_key none db call =
      noEffect db (.httpError 403 "Could not validate API KEY") := by
  unfold handle_request get_api_key
  rfl

/-! ### C9 — every status update rewrites comment and error_message -/

/-- C9 (implicit frame effect): `update_submission_status` always places
`comment` and `error_message` in its `SET` clause with the supplied
arguments (defaulting to null), and always bumps `updated_at`; a prior
comment or error message survives only if explicitly resupplied.  By
contrast `generated_video_gcs_path` is written only when a value is
supplied, so it is preserved by default. -/
theorem C9_overwrite (db : DB) (now submission_id : Nat)
    (ns : SubmissionStatusEnum) (c v e : Option String) (pm vm : Bool)
    (r : Submission) (hmem : r ∈ db.rows) (hid : r.id = submission_id) :
    let r' := applyStatusUpdate now ns c v e pm vm r
    r' ∈ (update_submission_status db now submission_id ns c v e pm vm).1.rows
    ∧ r'.comment = c
    ∧ r'.error_message = e
    ∧ r'.updated_at = now
    ∧ (v = none → r'.generated_video_gcs_path = r.generated_video_gcs_path) := by
  refine ⟨?_, rfl, rfl, rfl, ?_⟩
  · unfold update_submission_status
    refine List.mem_map.2 ⟨r, hmem, ?_⟩
    simp [hid]
  · intro hv
    simp [applyStatusUpdate, hv]

/-- C9, witness: moving a record that carries an old error message and an
old comment through a transition that does not resupply them (the video
approval call passes neither) erases both. -/
theorem C9_overwrite_witness :
    let old : Submission := { sampleSub 1 .PENDING_VIDEO_APPROVAL with
      comment := some "old comment", error_message := some "old error" }
    let r' := applyStatusUpdate 9 .VIDEO_APPROVED none none none false true old
    r' ∈ (update_submission_status { rows := [old] } 9 1 .VIDEO_APPROVED
        none none none false true).1.rows
    ∧ r'.comment = none
    ∧ r'.error_message = none
    ∧ r'.updated_at = 9
    ∧ (none = (none : Option String) →
        r'.generated_video_gcs_path = old.generated_video_gcs_path) := by
  have h := C9_overwrite { rows := [{ sampleSub 1 .PENDING_VIDEO_APPROVAL with
      comment := some "old comment", error_message := some "old error" }] }
    9 1 .VIDEO_APPROVED none none none false true
    { sampleSub 1 .PENDING_VIDEO_APPROVAL with
      comment := some "old comment", error_message := some "old error" }
    (List.mem_singleton.2 rfl) rfl
  exact ⟨h.1, h.2.1, h.2.2.1, h.2.2.2.1, h.2.2.2.2⟩

/-! ### C6 — the polling loop is bounded and times out explicitly -/

/-- The attempt counter of the polling loop never exceeds
`max_attempts`. -/
theorem pollFrom_attempts_le (responses : Nat → PollApiResponse) (m : Nat) :
    ∀ fuel attempts, attempts ≤ m → (pollFrom responses m attempts fuel).2 ≤ m := by
  intro fuel
  induction fuel with
  | zero => intro attempts h; exact h
  | succ n ih =>
    intro attempts h
    unfold pollFrom
    by_cases hlt : attempts < m
    · simp only [hlt, if_true]
      cases pollStep (responses (attempts + 1)) with
      | none => exact ih (attempts + 1) hlt
      | some r => exact hlt
    · simp only [hlt, if_false]
      exact h

/-- If every remaining poll answer is non-terminal, the loop falls
through to the timeout result. -/
theorem pollFrom_timeout (responses : Nat → PollApiResponse) (m : Nat) :
    ∀ fuel attempts,
      (∀ a, attempts < a → a ≤ m → pollStep (responses a) = none) →
      (pollFrom responses m attempts fuel).1 = timeoutResult m := by
  intro fuel
  induction fuel with
  | zero => intro attempts _; rfl
  | succ n ih =>
    intro attempts h
    unfold pollFrom
    by_cases hlt : attempts < m
    · simp only [hlt, if_true]
      rw [h (attempts + 1) (Nat.lt_succ_of_le (Nat.le_refl _)) hlt]
      exact ih (attempts + 1) fun a ha ham => h a (Nat.lt_of_succ_lt ha) ham
    · simp only [hlt, if_false]

/-- C6: for every sequence of per-attempt provider answers — `RUNNING`,
`PENDING`, unknown statuses, HTTP errors, transport errors, unexpected
exceptions, or terminal answers — the polling loop performs at most
`max_polling_attempts` iterations, and if no attempt within that bound
produces a terminal result the loop returns the `FAILED` result whose
reason states the timeout. -/
theorem C6_polling_bounded (responses : Nat → PollApiResponse) (max_attempts : Nat) :
    poll_veo2_job_attempts responses max_attempts ≤ max_attempts
    ∧ ((∀ a, 1 ≤ a → a ≤ max_attempts → pollStep (responses a) = none) →
        poll_veo2_job responses max_attempts = timeoutResult max_attempts) := by
  constructor
  · exact pollFrom_attempts_le responses max_attempts max_attempts 0 (Nat.zero_le _)
  · intro h
    exact pollFrom_timeout responses max_attempts max_attempts 0
      (fun a ha ham => h a ha ham)

/-- C6, witness: a provider that always answers `RUNNING` exhausts the
two allowed attempts and yields the timeout failure. -/
theorem C6_polling_bounded_witness :
    poll_veo2_job_attempts (fun _ => PollApiResponse.running) 2 ≤ 2
    ∧ poll_veo2_job (fun _ => PollApiResponse.running) 2 = timeoutResult 2 :=
  ⟨(C6_polling_bounded (fun _ => PollApiResponse.running) 2).1,
   (C6_polling_bounded (fun _ => PollApiResponse.running) 2).2 fun _ _ _ => rfl⟩

/-! ### C10 — an omitted email is rejected before any effect -/

/-- C10 (implicit): `email` is declared `Form(None)`, but
`is_valid_email_regex` is applied to it unconditionally; an omitted email
reaches `re.match` as `None` and raises `TypeError`, so the request ends
in an error response before the photo upload and before any row is
inserted (when the content type passes, the error is exactly the
unhandled 500); and a row can only ever be created when a supplied email
matches the validation pattern. -/
theorem C10_email_required (db : DB) (new_id now : Nat)
    (code ext content_type user_name : String) (user_prompt : Option String) :
    (∃ c d, create_submission db new_id now code ext content_type user_name none user_prompt =
      noEffect db (.httpError c d))
    ∧ (content_type ∈ ["image/jpeg", "image/png", "image/heic"] →
        create_submission db new_id now code ext content_type user_name none user_prompt =
          noEffect db (.httpError 500 "TypeError: expected string or bytes-like object"))
    ∧ (∀ email : Option String,
        (create_submission db new_id now code ext content_type user_name email
          user_prompt).photoUploaded = true →
        ∃ s, email = some s ∧ is_valid_email_regex s = true) := by
  refine ⟨?_, ?_, ?_⟩
  · unfold create_submission
    by_cases hct : content_type ∈ ["image/jpeg", "image/png", "image/heic"]
    · refine ⟨500, "TypeError: expected string or bytes-like object", ?_⟩
      simp [hct]
    · refine ⟨400, "Invalid file type: " ++ content_type ++ ". Only JPEG, PNG, HEIC allowed.", ?_⟩
      simp [hct]
  · intro hct
    unfold create_submission
    simp [hct]
  · intro email h
    unfold create_submission at h
    by_cases hct : content_type ∈ ["image/jpeg", "image/png", "image/heic"]
    · simp only [hct, if_true, if_false] at h
      cases email with
      | none => exact absurd h (by simp [noEffect])
      | some s =>
        by_cases hv : is_valid_email_regex s = true
        · exact ⟨s, rfl, hv⟩
        · simp only [Bool.not_eq_true] at hv
          simp [hv, noEffect] at h
    · simp [hct, noEffect] at h

/-- C10, witness: with a valid content type and the email omitted, the
handler answers the unhandled 500 and neither uploads nor inserts; and a
row inserted under a supplied email implies that email matched the
pattern. -/
theorem C10_email_required_witness :
    create_submission (sampleDB .PHOTO_REJECTED) 2 4 "CODE2" ".jpg" "image/jpeg" "bob"
        none (some "wave") =
      noEffect (sampleDB .PHOTO_REJECTED)
        (.httpError 500 "TypeError: expected string or bytes-like object") :=
  (C10_email_required (sampleDB .PHOTO_REJECTED) 2 4 "CODE2" ".jpg" "image/jpeg" "bob"
    (some "wave")).2.1 (by decide)

/-! ### C2 — failure handling ignores the redelivery counter -/

/-- C2, counterexample: first delivery (retry counter 0, below any
positive `max_retries`) with a provider that reports failure.  The claim
requires `PENDING_GENERATION_RETRY` plus a failure report (redelivery);
the handler instead immediately writes the terminal `GENERATION_FAILED`
and reports success (200) — no `PENDING_GENERATION_RETRY` state even
exists in the code's enum. -/
theorem C2_counterexample :
    (get_submission_by_id (generate_video 80 (sampleDB .PHOTO_APPROVED) 1 (some 0)
        (.submitOk "job-1" fun _ => .failed (some "boom")) 1 2).db 1).map
        Submission.status = some .GENERATION_FAILED
    ∧ (get_submission_by_id (generate_video 80 (sampleDB .PHOTO_APPROVED) 1 (some 0)
        (.submitOk "job-1" fun _ => .failed (some "boom")) 1 2).db 1).map
        Submission.error_message = some (some "boom")
    ∧ (generate_video 80 (sampleDB .PHOTO_APPROVED) 1 (some 0)
        (.submitOk "job-1" fun _ => .failed (some "boom")) 1 2).response =
      .ok 200 "Video generation failed: boom" :=
  ⟨rfl, rfl, rfl⟩

/-- C2, amended: the redelivery counter (the `X-CloudTasks-TaskRetryCount`
header) is read only for logging and never consulted; there is no
`max_retries` bound and no `PENDING_GENERATION_RETRY` state.  On every
provider-reported failure or poll timeout the handler writes the terminal
`GENERATION_FAILED` with the reason in `error_message` and reports
success (200, stopping redelivery) — the handler's outcome is identical
for every value of the counter. -/
theorem C2_amended (max_polling_attempts : Nat) (db : DB) (submission_id : Nat)
    (rc rc' : Option Nat) (job_id : String) (responses : Nat → PollApiResponse)
    (t1 t2 : Nat) (r : Submission)
    (hfind : get_submission_by_id db submission_id = some r)
    (hst : r.status = .PHOTO_APPROVED)
    (hfail : (poll_veo2_job responses max_polling_attempts).status ≠ "SUCCEEDED") :
    let res := generate_video max_polling_attempts db submission_id rc
      (.submitOk job_id responses) t1 t2
    res.response = .ok 200 ("Video generation failed: " ++
      optStr (poll_veo2_job responses max_polling_attempts).error)
    ∧ (get_submission_by_id res.db submission_id).map Submission.status =
        some .GENERATION_FAILED
    ∧ (get_submission_by_id res.db submission_id).map Submission.error_message =
        some (poll_veo2_job responses max_polling_attempts).error
    ∧ generate_video max_polling_attempts db submission_id rc
        (.submitOk job_id responses) t1 t2 =
      generate_video max_polling_attempts db submission_id rc'
        (.submitOk job_id responses) t1 t2 := by
  have hid : r.id = submission_id := get_submission_by_id_id db submission_id r hfind
  have hfail' : ((poll_veo2_job responses max_polling_attempts).status == "SUCCEEDED") = false := by
    simpa using hfail
  have hres : generate_video max_polling_attempts db submission_id rc
      (.submitOk job_id responses) t1 t2 =
      { db := (update_submission_status
          (update_submission_status db t1 submission_id .GENERATING_VIDEO
            none none none false false).1 t2 submission_id .GENERATION_FAILED
          none none (poll_veo2_job responses max_polling_attempts).error false false).1
        trace := [(update_submission_status db t1 submission_id .GENERATING_VIDEO
            none none none false false).1,
          (update_submission_status
            (update_submission_status db t1 submission_id .GENERATING_VIDEO
              none none none false false).1 t2 submission_id .GENERATION_FAILED
            none none (poll_veo2_job responses max_polling_attempts).error false false).1]
        response := .ok 200 ("Video generation failed: " ++
          optStr (poll_veo2_job responses max_polling_attempts).error)
        providerCalled := true, taskEnqueued := false, photoUploaded := false } := by
    unfold generate_video
    rw [hfind]
    simp [hst, hfail']
  refine ⟨?_, ?_, ?_, rfl⟩
  · rw [hres]
  · show (get_submission_by_id (generate_video max_polling_attempts db submission_id rc
      (.submitOk job_id responses) t1 t2).db submission_id).map Submission.status = _
    rw [hres]
    simp only [get_submission_by_id_update, hfind, Option.map_some]
    simp [hid, applyStatusUpdate]
  · show (get_submission_by_id (generate_video max_polling_attempts db submission_id rc
      (.submitOk job_id responses) t1 t2).db submission_id).map Submission.error_message = _
    rw [hres]
    simp only [get_submission_by_id_update, hfind, Option.map_some]
    simp [hid, applyStatusUpdate]

/-- C2, amended, witness: concrete always-failing provider, first
delivery. -/
theorem C2_amended_witness :
    (generate_video 80 (sampleDB .PHOTO_APPROVED) 1 (some 0)
        (.submitOk "job-1" fun _ => .failed (some "boom")) 1 2).response =
      .ok 200 ("Video generation failed: " ++
        optStr (poll_veo2_job (fun _ => .failed (some "boom")) 80).error) :=
  (C2_amended 80 (sampleDB .PHOTO_APPROVED) 1 (some 0) (some 5) "job-1"
    (fun _ => .failed (some "boom")) 1 2 (sampleSub 1 .PHOTO_APPROVED) rfl rfl
    (by decide)).1

/-! ### C3 — status lifecycle versus the §4.1 graph -/

/-- If every row that a point lookup can return for the updated id has a
§4.1 edge to the written status, the write moves every record along the
graph (records with other ids are untouched). -/
theorem edgeOk_update (db : DB) (now id : Nat) (ns : SubmissionStatusEnum)
    (c v e : Option String) (pm vm : Bool)
    (h : ∀ r, get_submission_by_id db id = some r → spec_edge r.status ns = true) :
    EdgeOk db (update_submission_status db now id ns c v e pm vm).1 := by
  intro i r r' h1 h2
  rw [get_submission_by_id_update, h1] at h2
  by_cases hm : r.id = id
  · have hii : i = id := by
      have hidr : r.id = i := get_submission_by_id_id db i r h1
      rw [← hidr, hm]
    subst hii
    right
    have h2' : applyStatusUpdate now ns c v e pm vm r = r' := by
      simpa [hm] using h2
    rw [← h2']
    exact h r h1
  · left
    have h2' : r = r' := by simpa [hm] using h2
    rw [h2']

/-- A status write whose written status is in the §4.1 set preserves
"all stored statuses are in the §4.1 set". -/
theorem states_update (db : DB) (now id : Nat) (ns : SubmissionStatusEnum)
    (c v e : Option String) (pm vm : Bool)
    (hns : spec_state_set ns = true)
    (h : ∀ r ∈ db.rows, spec_state_set r.status = true) :
    ∀ r ∈ (update_submission_status db now id ns c v e pm vm).1.rows,
      spec_state_set r.status = true := by
  intro r hr
  unfold update_submission_status at hr
  simp only at hr
  rcases List.mem_map.1 hr with ⟨a, ha, rfl⟩
  by_cases hm : a.id = id
  · simpa [hm, applyStatusUpdate] using hns
  · simpa [hm] using h a ha

/-- Appending a fresh row leaves every existing record's status
untouched. -/
theorem edgeOk_append (db : DB) (x : Submission) :
    EdgeOk db { rows := db.rows ++ [x] } := by
  intro i r r' h1 h2
  left
  have h3 : get_submission_by_id { rows := db.rows ++ [x] } i = some r :=
    find?_append_left db.rows x _ r h1
  rw [h3] at h2
  rw [Option.some.inj h2]

/-- Appending a row whose status is in the §4.1 set preserves the
value invariant. -/
theorem states_append (db : DB) (x : Submission)
    (hx : spec_state_set x.status = true)
    (h : ∀ r ∈ db.rows, spec_state_set r.status = true) :
    ∀ r ∈ db.rows ++ [x], spec_state_set r.status = true := by
  intro r hr
  rcases List.mem_append.1 hr with h1 | h1
  · exact h r h1
  · rw [List.mem_singleton.1 h1]
    exact hx

/-- C3, counterexample: under interleaved redelivery the status does not
follow the §4.1 graph.  Both deliveries pass the gate on the shared
snapshot; after A finishes, the record is `PENDING_VIDEO_APPROVAL`, and
B's stale writes then drag it to `GENERATING_VIDEO` and on to
`GENERATION_FAILED` — `PENDING_VIDEO_APPROVAL → GENERATING_VIDEO` is not
an edge of the graph, and a record that reached `PENDING_VIDEO_APPROVAL`
is subsequently overwritten to `GENERATION_FAILED`. -/
theorem C3_counterexample :
    ((get_submission_by_id C3_db0 1).map Submission.status = some .PHOTO_APPROVED)
    ∧ (get_submission_by_id C3_db2A 1).map Submission.status = some .PENDING_VIDEO_APPROVAL
    ∧ (get_submission_by_id C3_db3 1).map Submission.status = some .GENERATING_VIDEO
    ∧ (get_submission_by_id C3_db4 1).map Submission.status = some .GENERATION_FAILED
    ∧ spec_edge .PENDING_VIDEO_APPROVAL .GENERATING_VIDEO = false :=
  ⟨rfl, rfl, rfl, rfl, rfl⟩

/-- An empty write trace trivially satisfies both halves of the
sequential graph invariant. -/
theorem trace_nil_ok (db : DB) :
    TraceOk db ([] : List DB)
    ∧ ((∀ r ∈ db.rows, spec_state_set r.status = true) →
        ∀ x ∈ ([] : List DB), ∀ r ∈ x.rows, spec_state_set r.status = true) :=
  ⟨trivial, by intro _ x hx; cases hx⟩

/-- A one-write trace satisfies the invariant when the write respects the
graph and writes a §4.1 status. -/
theorem trace_single_ok (db : DB) (now id : Nat) (ns : SubmissionStatusEnum)
    (c v e : Option String) (pm vm : Bool)
    (hns : spec_state_set ns = true)
    (h : ∀ r, get_submission_by_id db id = some r → spec_edge r.status ns = true) :
    TraceOk db [(update_submission_status db now id ns c v e pm vm).1]
    ∧ ((∀ r ∈ db.rows, spec_state_set r.status = true) →
        ∀ x ∈ [(update_submission_status db now id ns c v e pm vm).1],
          ∀ r ∈ x.rows, spec_state_set r.status = true) := by
  refine ⟨⟨edgeOk_update db now id ns c v e pm vm h, trivial⟩, ?_⟩
  intro hall x hx
  rw [List.mem_singleton.1 hx]
  exact states_update db now id ns c v e pm vm hns hall

/-- Sequential `moderate_photo` invocations respect the §4.1 graph and
state set. -/
theorem moderate_photo_graph (db : DB) (now i : Nat) (d : ModerationDecisionEnum)
    (e : Bool) :
    TraceOk db (moderate_photo db now i d e).trace
    ∧ ((∀ r ∈ db.rows, spec_state_set r.status = true) →
        ∀ x ∈ (moderate_photo db now i d e).trace,
          ∀ r ∈ x.rows, spec_state_set r.status = true) := by
  cases hG : get_submission_by_id db i with
  | none =>
    have ht : (moderate_photo db now i d e).trace = [] := by
      unfold moderate_photo
      rw [hG]
      rfl
    rw [ht]
    exact trace_nil_ok db
  | some sub =>
    by_cases hs : sub.status = .PENDING_PHOTO_APPROVAL
    · have hedge : ∀ ns, spec_edge .PENDING_PHOTO_APPROVAL ns = true →
          ∀ r, get_submission_by_id db i = some r → spec_edge r.status ns = true := by
        intro ns hns r hr
        rw [hG] at hr
        cases Option.some.inj hr
        rw [hs]
        exact hns
      cases d with
      | approve =>
        have ht : (moderate_photo db now i .approve e).trace =
            [(update_submission_status db now i .PHOTO_APPROVED none none none true false).1] := by
          unfold moderate_photo
          rw [hG]
          simp only [hs, ne_eq, not_true_eq_false, if_false]
          split
          · split <;> rfl
          · rfl
        rw [ht]
        exact trace_single_ok db now i .PHOTO_APPROVED none none none true false rfl
          (hedge .PHOTO_APPROVED rfl)
      | reject =>
        have ht : (moderate_photo db now i .reject e).trace =
            [(update_submission_status db now i .PHOTO_REJECTED none none none true false).1] := by
          unfold moderate_photo
          rw [hG]
          simp only [hs, ne_eq, not_true_eq_false, if_false]
          split <;> rfl
        rw [ht]
        exact trace_single_ok db now i .PHOTO_REJECTED none none none true false rfl
          (hedge .PHOTO_REJECTED rfl)
    · have ht : (moderate_photo db now i d e).trace = [] := by
        unfold moderate_photo
        rw [hG]
        simp only [hs, ne_eq, not_false_eq_true, if_true]
        rfl
      rw [ht]
      exact trace_nil_ok db

/-- Sequential `moderate_video` invocations respect the §4.1 graph and
state set. -/
theorem moderate_video_graph (db : DB) (now i : Nat) (d : ModerationDecisionEnum) :
    TraceOk db (moderate_video db now i d).trace
    ∧ ((∀ r ∈ db.rows, spec_state_set r.status = true) →
        ∀ x ∈ (moderate_video db now i d).trace,
          ∀ r ∈ x.rows, spec_state_set r.status = true) := by
  cases hG : get_submission_by_id db i with
  | none =>
    have ht : (moderate_video db now i d).trace = [] := by
      unfold moderate_video
      rw [hG]
      rfl
    rw [ht]
    exact trace_nil_ok db
  | some sub =>
    by_cases hs : sub.status = .PENDING_VIDEO_APPROVAL
    · have hedge : ∀ ns, spec_edge .PENDING_VIDEO_APPROVAL ns = true →
          ∀ r, get_submission_by_id db i = some r → spec_edge r.status ns = true := by
        intro ns hns r hr
        rw [hG] at hr
        cases Option.some.inj hr
        rw [hs]
        exact hns
      cases d with
      | approve =>
        have ht : (moderate_video db now i .approve).trace =
            [(update_submission_status db now i .VIDEO_APPROVED none none none false true).1] := by
          unfold moderate_video
          rw [hG]
          simp only [hs, ne_eq, not_true_eq_false, if_false]
          split <;> rfl
        rw [ht]
        exact trace_single_ok db now i .VIDEO_APPROVED none none none false true rfl
          (hedge .VIDEO_APPROVED rfl)
      | reject =>
        have ht : (moderate_video db now i .reject).trace =
            [(update_submission_status db now i .VIDEO_REJECTED none none none false true).1] := by
          unfold moderate_video
          rw [hG]
          simp only [hs, ne_eq, not_true_eq_false, if_false]
          split <;> rfl
        rw [ht]
        exact trace_single_ok db now i .VIDEO_REJECTED none none none false true rfl
          (hedge .VIDEO_REJECTED rfl)
    · have ht : (moderate_video db now i d).trace = [] := by
        unfold moderate_video
        rw [hG]
        simp only [hs, ne_eq, not_false_eq_true, if_true]
        rfl
      rw [ht]
      exact trace_nil_ok db

/-- A two-write trace satisfies the invariant when both writes respect
the graph and write §4.1 statuses. -/
theorem trace_double_ok (db : DB) (t1 t2 id : Nat) (ns1 ns2 : SubmissionStatusEnum)
    (c1 v1 e1 c2 v2 e2 : Option String) (pm1 vm1 pm2 vm2 : Bool)
    (hns1 : spec_state_set ns1 = true) (hns2 : spec_state_set ns2 = true)
    (h1 : ∀ r, get_submission_by_id db id = some r → spec_edge r.status ns1 = true)
    (h2 : ∀ r, get_submission_by_id
        (update_submission_status db t1 id ns1 c1 v1 e1 pm1 vm1).1 id = some r →
      spec_edge r.status ns2 = true) :
    TraceOk db [(update_submission_status db t1 id ns1 c1 v1 e1 pm1 vm1).1,
      (update_submission_status (update_submission_status db t1 id ns1 c1 v1 e1 pm1 vm1).1
        t2 id ns2 c2 v2 e2 pm2 vm2).1]
    ∧ ((∀ r ∈ db.rows, spec_state_set r.status = true) →
        ∀ x ∈ [(update_submission_status db t1 id ns1 c1 v1 e1 pm1 vm1).1,
          (update_submission_status (update_submission_status db t1 id ns1 c1 v1 e1 pm1 vm1).1
            t2 id ns2 c2 v2 e2 pm2 vm2).1],
          ∀ r ∈ x.rows, spec_state_set r.status = true) := by
  refine ⟨⟨edgeOk_update db t1 id ns1 c1 v1 e1 pm1 vm1 h1,
    edgeOk_update _ t2 id ns2 c2 v2 e2 pm2 vm2 h2, trivial⟩, ?_⟩
  intro hall x hx
  have hall1 := states_update db t1 id ns1 c1 v1 e1 pm1 vm1 hns1 hall
  rcases List.mem_cons.1 hx with h | h
  · rw [h]
    exact hall1
  · rw [List.mem_singleton.1 h]
    exact states_update _ t2 id ns2 c2 v2 e2 pm2 vm2 hns2 hall1

/-- Sequential `generate_video` invocations respect the §4.1 graph and
state set. -/
theorem generate_video_graph (m : Nat) (db : DB) (i : Nat) (rc : Option Nat)
    (p : ProviderBehavior) (t1 t2 : Nat) :
    TraceOk db (generate_video m db i rc p t1 t2).trace
    ∧ ((∀ r ∈ db.rows, spec_state_set r.status = true) →
        ∀ x ∈ (generate_video m db i rc p t1 t2).trace,
          ∀ r ∈ x.rows, spec_state_set r.status = true) := by
  cases hG : get_submission_by_id db i with
  | none =>
    have ht : (generate_video m db i rc p t1 t2).trace = [] := by
      unfold generate_video
      rw [hG]
      rfl
    rw [ht]
    exact trace_nil_ok db
  | some sub =>
    by_cases hs : sub.status = .PHOTO_APPROVED
    · have hedge1 : ∀ r, get_submission_by_id db i = some r →
          spec_edge r.status .GENERATING_VIDEO = true := by
        intro r hr
        rw [hG] at hr
        cases Option.some.inj hr
        rw [hs]
        rfl
      have hget1 : get_submission_by_id
          (update_submission_status db t1 i .GENERATING_VIDEO none none none false false).1 i =
          some (applyStatusUpdate t1 .GENERATING_VIDEO none none none false false sub) := by
        rw [get_submission_by_id_update, hG]
        have hid : sub.id = i := get_submission_by_id_id db i sub hG
        simp [hid]
      have hedge2 : ∀ ns, spec_edge .GENERATING_VIDEO ns = true →
          ∀ r, get_submission_by_id
            (update_submission_status db t1 i .GENERATING_VIDEO none none none false false).1 i =
            some r → spec_edge r.status ns = true := by
        intro ns hns r hr
        rw [hget1] at hr
        cases Option.some.inj hr
        exact hns
      cases p with
      | submitHttpStatusError code =>
        have ht : (generate_video m db i rc (.submitHttpStatusError code) t1 t2).trace =
            [(update_submission_status db t1 i .GENERATING_VIDEO none none none false false).1] := by
          unfold generate_video
          rw [hG]
          simp only [hs, ne_eq, not_true_eq_false, if_false]
        rw [ht]
        exact trace_single_ok db t1 i .GENERATING_VIDEO none none none false false rfl hedge1
      | submitRequestError msg =>
        have ht : (generate_video m db i rc (.submitRequestError msg) t1 t2).trace =
            [(update_submission_status db t1 i .GENERATING_VIDEO none none none false false).1] := by
          unfold generate_video
          rw [hG]
          simp only [hs, ne_eq, not_true_eq_false, if_false]
        rw [ht]
        exact trace_single_ok db t1 i .GENERATING_VIDEO none none none false false rfl hedge1
      | submitUnexpected msg =>
        have ht : (generate_video m db i rc (.submitUnexpected msg) t1 t2).trace =
            [(update_submission_status db t1 i .GENERATING_VIDEO none none none false false).1] := by
          unfold generate_video
          rw [hG]
          simp only [hs, ne_eq, not_true_eq_false, if_false]
        rw [ht]
        exact trace_single_ok db t1 i .GENERATING_VIDEO none none none false false rfl hedge1
      | submitOk jid responses =>
        by_cases hp : ((poll_veo2_job responses m).status == "SUCCEEDED") = true
        · have ht : (generate_video m db i rc (.submitOk jid responses) t1 t2).trace =
              [(update_submission_status db t1 i .GENERATING_VIDEO none none none false false).1,
               (update_submission_status
                 (update_submission_status db t1 i .GENERATING_VIDEO none none none false false).1
                 t2 i .PENDING_VIDEO_APPROVAL none (poll_veo2_job responses m).video_uri
                 none false false).1] := by
            unfold generate_video
            rw [hG]
            simp only [hs, ne_eq, not_true_eq_false, if_false, hp, if_true]
          rw [ht]
          exact trace_double_ok db t1 t2 i .GENERATING_VIDEO .PENDING_VIDEO_APPROVAL
            none none none none (poll_veo2_job responses m).video_uri none
            false false false false rfl rfl hedge1 (hedge2 .PENDING_VIDEO_APPROVAL rfl)
        · have hp' : ((poll_veo2_job responses m).status == "SUCCEEDED") = false :=
            Bool.not_eq_true _ ▸ eq_false_of_ne_true hp
          have ht : (generate_video m db i rc (.submitOk jid responses) t1 t2).trace =
              [(update_submission_status db t1 i .GENERATING_VIDEO none none none false false).1,
               (update_submission_status
                 (update_submission_status db t1 i .GENERATING_VIDEO none none none false false).1
                 t2 i .GENERATION_FAILED none none (poll_veo2_job responses m).error
                 false false).1] := by
            unfold generate_video
            rw [hG]
            simp only [hs, ne_eq, not_true_eq_false, if_false, hp', Bool.false_eq_true]
          rw [ht]
          exact trace_double_ok db t1 t2 i .GENERATING_VIDEO .GENERATION_FAILED
            none none none none none (poll_veo2_job responses m).error
            false false false false rfl rfl hedge1 (hedge2 .GENERATION_FAILED rfl)
    · have ht : (generate_video m db i rc p t1 t2).trace = [] := by
        unfold generate_video
        rw [hG]
        simp only [hs, ne_eq, not_false_eq_true, if_true]
        rfl
      rw [ht]
      exact trace_nil_ok db

/-- Sequential `create_submission` invocations respect the §4.1 graph and
state set (a fresh record starts in the initial state). -/
theorem create_submission_graph (db : DB) (new_id now : Nat)
    (code ext ct un : String) (email up : Option String) :
    TraceOk db (create_submission db new_id now code ext ct un email up).trace
    ∧ ((∀ r ∈ db.rows, spec_state_set r.status = true) →
        ∀ x ∈ (create_submission db new_id now code ext ct un email up).trace,
          ∀ r ∈ x.rows, spec_state_set r.status = true) := by
  by_cases hct : ct ∈ ["image/jpeg", "image/png", "image/heic"]
  · cases email with
    | none =>
      have ht : (create_submission db new_id now code ext ct un none up).trace = [] := by
        unfold create_submission
        simp only [hct, if_true, if_false]
        rfl
      rw [ht]
      exact trace_nil_ok db
    | some e =>
      by_cases hv : is_valid_email_regex e = true
      · have ht : (create_submission db new_id now code ext ct un (some e) up).trace =
            [(crud_create_submission db new_id now code
              ("pending_photos/" ++ code ++ ext) un (some e) up).1] := by
          unfold create_submission
          simp [hct, hv]
        rw [ht]
        constructor
        · exact ⟨edgeOk_append db _, trivial⟩
        · intro hall x hx
          rw [List.mem_singleton.1 hx]
          exact states_append db _ rfl hall
      · have hv' : is_valid_email_regex e = false := eq_false_of_ne_true hv
        have ht : (create_submission db new_id now code ext ct un (some e) up).trace = [] := by
          unfold create_submission
          simp only [hct, if_true, if_false, hv', Bool.not_false]
          rfl
        rw [ht]
        exact trace_nil_ok db
  · have ht : (create_submission db new_id now code ext ct un email up).trace = [] := by
      unfold create_submission
      simp [hct]
      rfl
    rw [ht]
    exact trace_nil_ok db

/-- C3, amended: run sequentially (one handler invocation at a time, each
invocation's store round-trips uninterleaved), every mutating endpoint
keeps each record's status inside the §4.1 state set and moves it only
along §4.1 edges; but this discipline is enforced by a read-then-write
pattern, not by conditional writes, so interleaved redeliveries can break
it (see the counterexample: `PENDING_VIDEO_APPROVAL` is overwritten to
`GENERATING_VIDEO` and then `GENERATION_FAILED`). -/
theorem C3_amended (db : DB) (call : ApiCall) :
    TraceOk db (dispatch db call).trace
    ∧ ((∀ r ∈ db.rows, spec_state_set r.status = true) →
        ∀ x ∈ (dispatch db call).trace, ∀ r ∈ x.rows, spec_state_set r.status = true) := by
  cases call with
  | createSub new_id now code ext ct un email up =>
    exact create_submission_graph db new_id now code ext ct un email up
  | modPhoto i now d e => exact moderate_photo_graph db now i d e
  | modVideo i now d => exact moderate_video_graph db now i d
  | genVideo i rc p t1 t2 m => exact generate_video_graph m db i rc p t1 t2

/-- C3, amended, witness: a concrete sequential photo approval moves the
sample record `PENDING_PHOTO_APPROVAL → PHOTO_APPROVED`, within the
graph and the state set. -/
theorem C3_amended_witness :
    TraceOk (sampleDB .PENDING_PHOTO_APPROVAL)
      (dispatch (sampleDB .PENDING_PHOTO_APPROVAL) (.modPhoto 1 5 .approve true)).trace
    ∧ ∀ x ∈ (dispatch (sampleDB .PENDING_PHOTO_APPROVAL) (.modPhoto 1 5 .approve true)).trace,
        ∀ r ∈ x.rows, spec_state_set r.status = true := by
  have h := C3_amended (sampleDB .PENDING_PHOTO_APPROVAL) (.modPhoto 1 5 .approve true)
  exact ⟨h.1, h.2 (by decide)⟩

end Matta
